import Mathlib

/-
Verification development for the GoogleAIProvider streaming adapter
(`GoogleAIProvider.chatStream`, `checkConnection` and the `onData` chunk
handler).  The adapter's mutable per-exchange state and its raw-chunk
handler are embedded as pure Lean functions; one exchange is modelled as
a fold of the handler over the list of raw chunks the transport delivers.
-/

namespace Chatless

/-- One chat message as passed to chatStream: a role string and text content
(`LlmMessage` of BaseProvider). -/
structure LlmMessage where
  role : String
  content : String
deriving DecidableEq

/-- One entry of a parsed chunk's candidates[i].content.parts array; the
`text` field may be absent in the JSON, hence Option. -/
structure GPart where
  text : Option String
deriving DecidableEq

/-- The content object of a candidate; its `parts` array may be absent. -/
structure GContent where
  parts : Option (List GPart)
deriving DecidableEq

/-- One entry of a parsed chunk's candidates array. -/
structure Candidate where
  content : Option GContent
  finishReason : Option String
deriving DecidableEq

/-- The promptFeedback object of a parsed chunk. -/
structure PromptFeedback where
  blockReason : Option String
deriving DecidableEq

/-- A successfully parsed wire chunk of the Google AI streaming response:
optional responseId, optional candidates array, optional promptFeedback. -/
structure GenChunk where
  responseId : Option String
  candidates : Option (List Candidate)
  promptFeedback : Option PromptFeedback
deriving DecidableEq

/-- A raw transport delivery: either text that fails JSON.parse
(malformed) or text that parses to a GenChunk.  The adapter only ever
inspects the parse outcome, so raw text is abstracted to it. -/
inductive RawChunk where
  | malformed
  | parsed (c : GenChunk)
deriving DecidableEq

/-- The adapter's per-exchange mutable state: lastContentLength,
processedChunks (a set of fingerprint strings, modelled as a list) and
currentResponseId. -/
structure GState where
  lastContentLength : Nat
  processedChunks : List String
  currentResponseId : Option String
deriving DecidableEq

/-- Callback events observable by the caller, in the order fired. -/
inductive Ev where
  | start
  | token (t : String)
  | complete
  | error (msg : String)
deriving DecidableEq

/-- State at the beginning of an exchange: chatStream resets
lastContentLength to 0, clears processedChunks and nulls
currentResponseId before connecting. -/
def initState : GState :=
  { lastContentLength := 0, processedChunks := [], currentResponseId := none }

/-- JS template-literal rendering of the tracked response id:
null renders as the string null. -/
def idStr : Option String → String
  | some s => s
  | none => "null"

/-- Length used by the fingerprint:
candidates?.[0]?.content?.parts?.[0]?.text?.length with 0 for any
missing link (the `|| 0` default). -/
def firstLen (c : GenChunk) : Nat :=
  match c.candidates.bind List.head? with
  | some cand =>
    match cand.content with
    | some content =>
      match content.parts.bind List.head? with
      | some p => (p.text.map String.length).getD 0
      | none => 0
    | none => 0
  | none => 0

/-- The dedup fingerprint: the template literal combining the tracked
response id with the first part's text length. -/
def chunkKey (rid : Option String) (c : GenChunk) : String :=
  idStr rid ++ "-" ++ toString (firstLen c)

/-- The responseId block of the handler: when the payload carries a
truthy responseId, reset length counter and dedup set if a different
truthy id is currently tracked, then adopt the payload's id. -/
def updateId (s : GState) (c : GenChunk) : GState :=
  match c.responseId with
  | some rid =>
    if rid = "" then s
    else
      let s1 :=
        match s.currentResponseId with
        | some cur =>
          if cur ≠ "" ∧ cur ≠ rid then
            { s with lastContentLength := 0, processedChunks := [] }
          else s
        | none => s
      { s1 with currentResponseId := some rid }
  | none => s

/-- Token events of one candidate's parts loop: each part with truthy
text of positive length emits that text verbatim. -/
def partTokens (ps : List GPart) : List Ev :=
  ps.filterMap fun p =>
    match p.text with
    | some t => if t = "" then none else some (Ev.token t)
    | none => none

/-- Token events of the first candidate: the parts loop runs when
content.parts is a present array. -/
def candidateTokens (cand : Candidate) : List Ev :=
  match cand.content with
  | some content =>
    match content.parts with
    | some ps => partTokens ps
    | none => []
  | none => []

/-- The promptFeedback check: a truthy blockReason emits one error
event with the content-blocked message. -/
def blockEvents (c : GenChunk) : List Ev :=
  match c.promptFeedback with
  | some pf =>
    match pf.blockReason with
    | some r => if r = "" then [] else [Ev.error ("Content blocked: " ++ r)]
    | none => []
  | none => []

/-- Events fired for a parsed chunk that passed the dedup check: tokens
of the first candidate's parts, then on-complete when its finishReason
is STOP (both only when the candidates array is non-empty), then the
promptFeedback error check. -/
def chunkEvents (c : GenChunk) : List Ev :=
  match c.candidates with
  | some (cand :: _) =>
    candidateTokens cand
      ++ (if cand.finishReason = some "STOP" then [Ev.complete] else [])
      ++ blockEvents c
  | _ => blockEvents c

/-- Error message reported when JSON.parse of a raw chunk throws. -/
def parseErrorMsg : String := "Failed to parse response"

/-- The onData handler for one raw chunk: parse failure reports one
error and leaves the state untouched; otherwise update the tracked
response id, drop the chunk silently when its fingerprint was already
processed, else record the fingerprint and fire the chunk's events. -/
def onData (s : GState) (r : RawChunk) : GState × List Ev :=
  match r with
  | .malformed => (s, [Ev.error parseErrorMsg])
  | .parsed c =>
    let s1 := updateId s c
    let key := chunkKey s1.currentResponseId c
    if key ∈ s1.processedChunks then (s1, [])
    else ({ s1 with processedChunks := key :: s1.processedChunks }, chunkEvents c)

/-- One exchange's chunk processing: fold onData over the raw chunks the
transport delivers, concatenating the fired events in order. -/
def runChunks : GState → List RawChunk → GState × List Ev
  | s, [] => (s, [])
  | s, r :: rest =>
    let step := onData s r
    let next := runChunks step.1 rest
    (next.1, step.2 ++ next.2)

/-- The generationConfig of the outgoing request body. -/
structure GenerationConfig where
  temperature : ℚ
  thinkingBudget : Nat
deriving DecidableEq

/-- One entry of the request body's contents array: a vendor role and
the parts array (each part holding one text). -/
structure ContentMsg where
  role : String
  parts : List String
deriving DecidableEq

/-- The outgoing request body. -/
structure RequestBody where
  contents : List ContentMsg
  generationConfig : GenerationConfig
deriving DecidableEq

/-- One startConnection request handed to the SSE client. -/
structure SseRequest where
  url : String
  method : String
  headers : List (String × String)
  body : RequestBody
deriving DecidableEq

/-- The regex replace of a single trailing slash in the base URL. -/
def stripTrailingSlash (s : String) : String :=
  if s.endsWith "/" then s.dropRight 1 else s

/-- Target URL construction of chatStream. -/
def buildUrl (baseUrl model : String) : String :=
  stripTrailingSlash baseUrl ++ "/models/" ++ model ++ ":streamGenerateContent?alt=sse"

/-- Request body construction of chatStream: each message maps to the
vendor role (user stays user, anything else becomes model) wrapping its
content as the single part text; temperature 0.7 and thinkingBudget 0
are fixed literals. -/
def buildBody (messages : List LlmMessage) : RequestBody :=
  { contents := messages.map fun m =>
      { role := if m.role = "user" then "user" else "model", parts := [m.content] }
    generationConfig := { temperature := 7/10, thinkingBudget := 0 } }

/-- Header construction of chatStream. -/
def buildHeaders (apiKey : String) : List (String × String) :=
  [("Content-Type", "application/json"),
   ("x-goog-api-key", apiKey),
   ("Accept", "text/event-stream"),
   ("Cache-Control", "no-cache"),
   ("Connection", "keep-alive")]

/-- The caller-supplied options record; the adapter receives it as
`_opts` and never reads it, so entries are abstracted to string pairs. -/
abbrev Opts := List (String × String)

/-- chatStream of GoogleAIProvider: resolve the credential (a falsy key
fires one NO_KEY error and returns, issuing no request), otherwise reset
the per-exchange state and issue exactly one startConnection request;
the transport fires on-start once connected and then feeds each
delivered raw chunk to the onData handler.  Result: the requests issued
and the callback events fired, in order. -/
def chatStream (baseUrl model : String) (messages : List LlmMessage)
    (apiKey : Option String) ( _opts : Opts) (delivered : List RawChunk) :
    List SseRequest × List Ev :=
  match apiKey with
  | none => ([], [Ev.error "NO_KEY"])
  | some k =>
    if k = "" then ([], [Ev.error "NO_KEY"])
    else
      ([{ url := buildUrl baseUrl model, method := "POST",
          headers := buildHeaders k, body := buildBody messages }],
       Ev.start :: (runChunks initState delivered).2)

/-- Result of the connectivity probe. -/
structure CheckResult where
  ok : Bool
  reason : Option String
  message : Option String
deriving DecidableEq

/-- checkConnection of GoogleAIProvider: a falsy resolved key yields
the NO_KEY failure value, otherwise ok; paired with the number of
transport invocations performed, which is zero on both paths (the
method never touches the SSE client). -/
def checkConnection (apiKey : Option String) : CheckResult × Nat :=
  match apiKey with
  | none => ({ ok := false, reason := some "NO_KEY", message := some "NO_KEY" }, 0)
  | some k =>
    if k = "" then ({ ok := false, reason := some "NO_KEY", message := some "NO_KEY" }, 0)
    else ({ ok := true, reason := none, message := none }, 0)

/-- Terminal callbacks are on-complete and on-error. -/
def isTerminal : Ev → Bool
  | .complete => true
  | .error _ => true
  | _ => false

/-- Token callback recogniser. -/
def isTok : Ev → Bool
  | .token _ => true
  | _ => false

/-- Number of terminal callbacks in an event trace. -/
def countTerminal (evs : List Ev) : Nat := (evs.filter isTerminal).length

/-- Whether some token callback fires after some terminal callback. -/
def tokenAfterTerminal : List Ev → Bool
  | [] => false
  | e :: rest => (isTerminal e && rest.any isTok) || tokenAfterTerminal rest

/-- finishReason of the first candidate, none when the candidates array
is absent or empty. -/
def finishOf (c : GenChunk) : Option String :=
  match c.candidates with
  | some (cand :: _) => cand.finishReason
  | _ => none

/-- Convenience constructor for a parsed chunk with one candidate
holding one text part. -/
def mkTextChunk (rid : Option String) (t : String) (fin : Option String) : GenChunk :=
  { responseId := rid,
    candidates := some [{ content := some { parts := some [{ text := some t }] },
                          finishReason := fin }],
    promptFeedback := none }

/-- First chunk of the end-to-end scenario: responseId r1, text Hel. -/
def chunkHel : GenChunk := mkTextChunk (some "r1") "Hel" none

/-- Second chunk of the end-to-end scenario: responseId r1, text lo,
finishReason STOP. -/
def chunkLo : GenChunk := mkTextChunk (some "r1") "lo" (some "STOP")

/-- A chunk with text a and finishReason STOP, no responseId. -/
def cStopA : GenChunk := mkTextChunk none "a" (some "STOP")

/-- A chunk with text bc and finishReason STOP, no responseId. -/
def cStopBC : GenChunk := mkTextChunk none "bc" (some "STOP")

/-- A chunk whose single candidate carries two text parts a and b. -/
def cTwoParts : GenChunk :=
  { responseId := none,
    candidates := some [{ content := some { parts := some [{ text := some "a" },
                                                           { text := some "b" }] },
                          finishReason := none }],
    promptFeedback := none }

/-- A plain text chunk abc without responseId. -/
def cAbc : GenChunk := mkTextChunk none "abc" none

/-- A chunk with text xyz (same first-part length as abc), finishReason
STOP and a SAFETY block reason. -/
def cXyzStopBlock : GenChunk :=
  { responseId := none,
    candidates := some [{ content := some { parts := some [{ text := some "xyz" }] },
                          finishReason := some "STOP" }],
    promptFeedback := some { blockReason := some "SAFETY" } }

/-- A plain text chunk Hel without responseId, used as run prefix. -/
def cPreHel : GenChunk := mkTextChunk none "Hel" none

/-- A text chunk lo with finishReason STOP and no responseId, used as
final run chunk. -/
def cLastLo : GenChunk := mkTextChunk none "lo" (some "STOP")

/-- A text chunk xyz carried under responseId r2. -/
def cR2xyz : GenChunk := mkTextChunk (some "r2") "xyz" none

/-- A state with no tracked identity whose dedup set already holds the
fingerprint null-3. -/
def sDupNull3 : GState :=
  { lastContentLength := 0, processedChunks := ["null-3"], currentResponseId := none }

/-- A state tracking identity r1 with fingerprint r1-3 recorded and a
nonzero length counter. -/
def sTrackR1 : GState :=
  { lastContentLength := 7, processedChunks := ["r1-3"], currentResponseId := some "r1" }

section Lemmas

/-- A chunk without responseId leaves the tracked identity state alone. -/
theorem updateId_none {c : GenChunk} (h : c.responseId = none) (s : GState) :
    updateId s c = s := by
  simp [updateId, h]

/-- Unfolding of one processing step inside a run. -/
theorem runChunks_cons (s : GState) (r : RawChunk) (rest : List RawChunk) :
    runChunks s (r :: rest) =
      ((runChunks (onData s r).1 rest).1,
       (onData s r).2 ++ (runChunks (onData s r).1 rest).2) := by
  simp [runChunks]

/-- A run over concatenated deliveries is the two runs chained. -/
theorem runChunks_append (a b : List RawChunk) : ∀ s : GState,
    runChunks s (a ++ b) =
      ((runChunks (runChunks s a).1 b).1,
       (runChunks s a).2 ++ (runChunks (runChunks s a).1 b).2) := by
  induction a with
  | nil => intro s; simp [runChunks]
  | cons r a ih => intro s; simp [runChunks_cons, ih, List.append_assoc]

/-- Processing an already-fingerprinted chunk under an untracked
identity changes nothing and emits nothing. -/
theorem onData_quiet_mem {s : GState} {c : GenChunk} (hid : s.currentResponseId = none)
    (hc : c.responseId = none) (hmem : chunkKey none c ∈ s.processedChunks) :
    onData s (.parsed c) = (s, []) := by
  simp [onData, updateId_none hc, hid, hmem]

/-- Processing a fresh chunk under an untracked identity records its
fingerprint and fires its events. -/
theorem onData_quiet_fresh {s : GState} {c : GenChunk} (hid : s.currentResponseId = none)
    (hc : c.responseId = none) (hmem : chunkKey none c ∉ s.processedChunks) :
    onData s (.parsed c) =
      ({ s with processedChunks := chunkKey none c :: s.processedChunks },
       chunkEvents c) := by
  simp [onData, updateId_none hc, hid, hmem]

/-- The parts loop emits only token events. -/
theorem partTokens_all_tok (ps : List GPart) : (partTokens ps).all isTok = true := by
  induction ps with
  | nil => rfl
  | cons p ps ih =>
    cases hp : p.text with
    | none => simpa [partTokens, List.filterMap_cons, hp] using ih
    | some t =>
      by_cases ht : t = ""
      · simpa [partTokens, List.filterMap_cons, hp, ht] using ih
      · simpa [partTokens, List.filterMap_cons, hp, ht, isTok] using ih

/-- A candidate's extraction emits only token events. -/
theorem candidateTokens_all_tok (cand : Candidate) :
    (candidateTokens cand).all isTok = true := by
  cases hc : cand.content with
  | none => simp [candidateTokens, hc]
  | some content =>
    cases hp : content.parts with
    | none => simp [candidateTokens, hc, hp]
    | some ps => simp [candidateTokens, hc, hp, partTokens_all_tok]

/-- A chunk without STOP and without promptFeedback fires only tokens. -/
theorem chunkEvents_quiet {c : GenChunk} (hfin : finishOf c ≠ some "STOP")
    (hpf : c.promptFeedback = none) : (chunkEvents c).all isTok = true := by
  unfold chunkEvents
  cases hc : c.candidates with
  | none => simp [blockEvents, hpf]
  | some l =>
    cases l with
    | nil => simp [blockEvents, hpf]
    | cons cand t =>
      have hfr : cand.finishReason ≠ some "STOP" := by
        simpa [finishOf, hc] using hfin
      simp [blockEvents, hpf, hfr, candidateTokens_all_tok]

/-- A STOP chunk without promptFeedback fires its tokens and then the
single completion event. -/
theorem chunkEvents_stop {c : GenChunk} (hfin : finishOf c = some "STOP")
    (hpf : c.promptFeedback = none) :
    ∃ ts, chunkEvents c = ts ++ [Ev.complete] ∧ ts.all isTok = true := by
  unfold chunkEvents
  cases hc : c.candidates with
  | none => simp [finishOf, hc] at hfin
  | some l =>
    cases l with
    | nil => simp [finishOf, hc] at hfin
    | cons cand t =>
      have hfr : cand.finishReason = some "STOP" := by
        simpa [finishOf, hc] using hfin
      exact ⟨candidateTokens cand, by simp [hfr, blockEvents, hpf], candidateTokens_all_tok cand⟩

/-- Over identity-free, feedback-free, non-STOP chunks the run emits
tokens only, keeps the identity untracked, and records only fingerprints
of the delivered chunks. -/
theorem runChunks_quiet (cs : List GenChunk) : ∀ s : GState,
    s.currentResponseId = none →
    (∀ c ∈ cs, c.responseId = none ∧ c.promptFeedback = none ∧ finishOf c ≠ some "STOP") →
    ((runChunks s (cs.map RawChunk.parsed)).2.all isTok = true ∧
     (runChunks s (cs.map RawChunk.parsed)).1.currentResponseId = none ∧
     ∀ k ∈ (runChunks s (cs.map RawChunk.parsed)).1.processedChunks,
       k ∈ s.processedChunks ∨ k ∈ cs.map (chunkKey none)) := by
  induction cs with
  | nil =>
    intro s hid _
    refine ⟨rfl, hid, ?_⟩
    intro k hk
    exact Or.inl hk
  | cons c cs ih =>
    intro s hid hall
    have hc := hall c (List.mem_cons_self c cs)
    have hcs : ∀ x ∈ cs, x.responseId = none ∧ x.promptFeedback = none ∧
        finishOf x ≠ some "STOP" := fun x hx => hall x (List.mem_cons_of_mem c hx)
    by_cases hmem : chunkKey none c ∈ s.processedChunks
    · have hstep := onData_quiet_mem hid hc.1 hmem
      have ihr := ih s hid hcs
      rw [List.map_cons, runChunks_cons, hstep]
      refine ⟨by simpa using ihr.1, ihr.2.1, ?_⟩
      intro k hk
      rcases ihr.2.2 k (by simpa using hk) with h | h
      · exact Or.inl h
      · exact Or.inr (by simp [h])
    · have hstep := onData_quiet_fresh hid hc.1 hmem
      have ihr := ih { s with processedChunks := chunkKey none c :: s.processedChunks }
        hid hcs
      rw [List.map_cons, runChunks_cons, hstep]
      refine ⟨?_, ihr.2.1, ?_⟩
      · rw [List.all_append, Bool.and_eq_true]
        exact ⟨chunkEvents_quiet hc.2.2 hc.2.1, by simpa using ihr.1⟩
      · intro k hk
        rcases ihr.2.2 k (by simpa using hk) with h | h
        · rcases List.mem_cons.mp h with h | h
          · exact Or.inr (by simp [h])
          · exact Or.inl h
        · exact Or.inr (by simp [h])

/-- An all-token trace followed by one completion has exactly one
terminal callback and no token after it. -/
theorem quiet_then_complete (l : List Ev) (h : l.all isTok = true) :
    countTerminal (l ++ [Ev.complete]) = 1 ∧
    tokenAfterTerminal (l ++ [Ev.complete]) = false := by
  induction l with
  | nil => exact ⟨rfl, rfl⟩
  | cons e l ih =>
    simp only [List.all_cons, Bool.and_eq_true] at h
    have ihr := ih h.2
    have hterm : isTerminal e = false := by
      cases e <;> simp_all [isTok, isTerminal]
    constructor
    · simpa [countTerminal, List.filter_cons, hterm] using ihr.1
    · simp [tokenAfterTerminal, hterm, ihr.2]

end Lemmas

/-- C1 counterexample: the transport delivers two well-formed chunks
that both carry finishReason STOP (texts a and bc, hence distinct
fingerprints); the exchange fires on-complete twice, so the number of
terminal callbacks is 2, not 1, and a token fires after the first
terminal callback. -/
theorem two_stop_chunks_fire_two_completions :
    (chatStream "https://generativelanguage.googleapis.com/v1beta" "gemini-pro"
        [{ role := "user", content := "Hi" }] (some "key") []
        [.parsed cStopA, .parsed cStopBC]).2 =
      [Ev.start, Ev.token "a", Ev.complete, Ev.token "bc", Ev.complete] ∧
    countTerminal (chatStream "https://generativelanguage.googleapis.com/v1beta" "gemini-pro"
        [{ role := "user", content := "Hi" }] (some "key") []
        [.parsed cStopA, .parsed cStopBC]).2 = 2 ∧
    tokenAfterTerminal (chatStream "https://generativelanguage.googleapis.com/v1beta"
        "gemini-pro" [{ role := "user", content := "Hi" }] (some "key") []
        [.parsed cStopA, .parsed cStopBC]).2 = true := by
  refine ⟨by decide, by decide, by decide⟩

/-- C1 amended: exactly one terminal callback, with no token after it,
holds only for restricted deliveries: when every delivered chunk parses,
carries no responseId and no promptFeedback, only the final chunk's
first candidate has finishReason STOP, and the final chunk's fingerprint
differs from every earlier chunk's, then the exchange fires exactly one
terminal callback (the final on-complete) and no token callback fires
after it. -/
theorem single_final_stop_terminal_unique (pre : List GenChunk) (clast : GenChunk)
    (hall : ∀ c ∈ pre, c.responseId = none ∧ c.promptFeedback = none ∧
      finishOf c ≠ some "STOP")
    (hlast : clast.responseId = none ∧ clast.promptFeedback = none ∧
      finishOf clast = some "STOP")
    (hfresh : chunkKey none clast ∉ pre.map (chunkKey none)) :
    countTerminal (runChunks initState ((pre ++ [clast]).map RawChunk.parsed)).2 = 1 ∧
    tokenAfterTerminal (runChunks initState ((pre ++ [clast]).map RawChunk.parsed)).2
      = false := by
  have hq := runChunks_quiet pre initState rfl hall
  have hnot : chunkKey none clast ∉
      (runChunks initState (pre.map RawChunk.parsed)).1.processedChunks := by
    intro hmem
    rcases hq.2.2 _ hmem with h | h
    · simp [initState] at h
    · exact hfresh h
  have hstep := onData_quiet_fresh hq.2.1 hlast.1 hnot
  obtain ⟨ts, hts, htok⟩ := chunkEvents_stop hlast.2.2 hlast.2.1
  rw [List.map_append, runChunks_append, List.map_singleton, runChunks_cons, hstep]
  simp only [runChunks, List.append_nil]
  rw [hts, ← List.append_assoc]
  refine quiet_then_complete _ ?_
  rw [List.all_append, Bool.and_eq_true]
  exact ⟨hq.1, htok⟩

/-- C1 amended witness: prefix chunk Hel (fingerprint null-3), final
chunk lo with STOP (fingerprint null-2): the exchange fires exactly one
terminal callback and no token after it. -/
theorem single_final_stop_terminal_unique_witness :
    (∀ c ∈ [cPreHel], c.responseId = none ∧ c.promptFeedback = none ∧
      finishOf c ≠ some "STOP") ∧
    (cLastLo.responseId = none ∧ cLastLo.promptFeedback = none ∧
      finishOf cLastLo = some "STOP") ∧
    chunkKey none cLastLo ∉ [cPreHel].map (chunkKey none) ∧
    countTerminal (runChunks initState (([cPreHel] ++ [cLastLo]).map RawChunk.parsed)).2
      = 1 ∧
    tokenAfterTerminal (runChunks initState
      (([cPreHel] ++ [cLastLo]).map RawChunk.parsed)).2 = false := by
  refine ⟨by decide, by decide, by decide, ?_, ?_⟩
  · exact (single_final_stop_terminal_unique [cPreHel] cLastLo (by decide) (by decide)
      (by decide)).1
  · exact (single_final_stop_terminal_unique [cPreHel] cLastLo (by decide) (by decide)
      (by decide)).2

/-- C2 counterexample: a single chunk whose candidate carries two text
parts a and b produces two token emissions while recording exactly one
fingerprint (null-1), so at most one token emission per fingerprint does
not hold. -/
theorem multipart_chunk_two_tokens_one_fingerprint :
    (runChunks initState [.parsed cTwoParts]).2 = [Ev.token "a", Ev.token "b"] ∧
    (runChunks initState [.parsed cTwoParts]).1.processedChunks = ["null-1"] := by
  refine ⟨by decide, by decide⟩

/-- C2 amended: a chunk whose fingerprint is already recorded in the
dedup set (after the identity update of the same chunk) produces no
callback at all — in particular no second token emission; the state is
left as the identity update produced it. -/
theorem duplicate_fingerprint_no_emission (s : GState) (c : GenChunk)
    (hdup : chunkKey (updateId s c).currentResponseId c ∈ (updateId s c).processedChunks) :
    onData s (.parsed c) = (updateId s c, []) := by
  simp [onData, hdup]

/-- C2 amended witness: with fingerprint null-3 already recorded and an
identity-free chunk of text abc, no callback fires. -/
theorem duplicate_fingerprint_no_emission_witness :
    chunkKey (updateId sDupNull3 cAbc).currentResponseId cAbc ∈
      (updateId sDupNull3 cAbc).processedChunks ∧
    onData sDupNull3 (.parsed cAbc) = (updateId sDupNull3 cAbc, []) := by
  refine ⟨by decide, duplicate_fingerprint_no_emission _ _ (by decide)⟩

/-- C3: when a tracked identity exists and a parsed chunk carries a
different truthy responseId, the handler clears the dedup set and resets
the length counter before adopting the new identity, and the chunk's
events all fire regardless of the prior dedup set (a fingerprint seen
under the prior identity no longer drops it). -/
theorem identity_change_resets_state (s : GState) (c : GenChunk) (rid rid2 : String)
    (htracked : s.currentResponseId = some rid) (hrid : rid ≠ "")
    (hc : c.responseId = some rid2) (hrid2 : rid2 ≠ "") (hne : rid2 ≠ rid) :
    (onData s (.parsed c)).1 =
      { lastContentLength := 0, processedChunks := [chunkKey (some rid2) c],
        currentResponseId := some rid2 } ∧
    (onData s (.parsed c)).2 = chunkEvents c := by
  have hupd : updateId s c =
      { lastContentLength := 0, processedChunks := [], currentResponseId := some rid2 } := by
    simp [updateId, hc, hrid2, htracked, hrid, Ne.symm hne]
  refine ⟨?_, ?_⟩ <;> simp [onData, hupd]

/-- C3 witness: tracked identity r1 with fingerprint r1-3 recorded, a
chunk under r2 with text xyz: state is reset to the single new
fingerprint r2-3 and the token fires. -/
theorem identity_change_resets_state_witness :
    sTrackR1.currentResponseId = some "r1" ∧
    ("r1" : String) ≠ "" ∧ cR2xyz.responseId = some "r2" ∧ ("r2" : String) ≠ "" ∧
    ("r2" : String) ≠ "r1" ∧
    (onData sTrackR1 (.parsed cR2xyz)).1 =
      { lastContentLength := 0, processedChunks := [chunkKey (some "r2") cR2xyz],
        currentResponseId := some "r2" } ∧
    (onData sTrackR1 (.parsed cR2xyz)).2 = chunkEvents cR2xyz := by
  refine ⟨rfl, by decide, rfl, by decide, by decide, ?_, ?_⟩
  · exact (identity_change_resets_state _ _ "r1" "r2" rfl (by decide) rfl (by decide)
      (by decide)).1
  · exact (identity_change_resets_state _ _ "r1" "r2" rfl (by decide) rfl (by decide)
      (by decide)).2

/-- C4: with messages user Hi and model gemini-pro, transport delivering
the r1-Hel chunk then the r1-lo chunk with finishReason STOP, the data
callbacks fired are on-token Hel, on-token lo, on-complete, in that
order (after the connection's on-start). -/
theorem scenario_hel_lo_complete :
    (chatStream "https://generativelanguage.googleapis.com/v1beta" "gemini-pro"
        [{ role := "user", content := "Hi" }] (some "key") []
        [.parsed chunkHel, .parsed chunkLo]).2 =
      [Ev.start, Ev.token "Hel", Ev.token "lo", Ev.complete] := by
  decide

/-- C5 counterexample: two malformed chunks in one exchange fire the
parse-failure error callback twice, not once per exchange. -/
theorem two_malformed_two_errors :
    (runChunks initState [RawChunk.malformed, RawChunk.malformed]).2 =
      [Ev.error parseErrorMsg, Ev.error parseErrorMsg] := by
  decide

/-- C5 amended: a malformed chunk is adapter-local — it leaves the
per-exchange state untouched and the remaining chunks are processed
exactly as if it had not been delivered — but it fires one on-error per
malformed chunk (not once per exchange). -/
theorem malformed_chunk_error_and_continue (s : GState) (rest : List RawChunk) :
    runChunks s (RawChunk.malformed :: rest) =
      ((runChunks s rest).1, Ev.error parseErrorMsg :: (runChunks s rest).2) := by
  simp [runChunks, onData]

/-- C6: checkConnection is a total function into CheckResult values (it
never throws), performs zero transport invocations for every resolved
credential, and a null credential yields the NO_KEY failure value. -/
theorem checkConnection_no_key_no_transport (apiKey : Option String) :
    (checkConnection apiKey).2 = 0 ∧
    (apiKey = none → (checkConnection apiKey).1 =
      { ok := false, reason := some "NO_KEY", message := some "NO_KEY" }) := by
  constructor
  · match apiKey with
    | none => rfl
    | some k =>
      by_cases hk : k = "" <;> simp [checkConnection, hk]
  · rintro rfl
    rfl

/-- C6 witness: with no credential, zero transport invocations and the
NO_KEY failure value. -/
theorem checkConnection_no_key_no_transport_witness :
    (checkConnection none).2 = 0 ∧
    (checkConnection none).1 =
      { ok := false, reason := some "NO_KEY", message := some "NO_KEY" } :=
  ⟨(checkConnection_no_key_no_transport none).1,
   (checkConnection_no_key_no_transport none).2 rfl⟩

/-- C7: when the credential resolves to absent, chatStream issues no
transport request and the only callback fired is the NO_KEY error, for
every model, message list, options record and would-be delivery. -/
theorem chatStream_no_key_fails_fast (baseUrl model : String)
    (messages : List LlmMessage) (opts : Opts) (delivered : List RawChunk) :
    chatStream baseUrl model messages none opts delivered =
      ([], [Ev.error "NO_KEY"]) := by
  rfl

/-- C8: with a truthy credential, chatStream issues exactly one request:
POST to the base URL (trailing slash stripped) extended with the model
and the streaming marker, headers including the JSON content type, the
vendor auth header carrying the credential, the streaming accept header
and keep-alive, and a body whose contents map each message role (user
stays user, anything else becomes model) wrapping the content as the
single part text, with temperature 0.7. -/
theorem chatStream_request_shape (baseUrl model : String)
    (messages : List LlmMessage) (k : String) (opts : Opts)
    (delivered : List RawChunk) (hk : k ≠ "") :
    ∃ req : SseRequest,
      (chatStream baseUrl model messages (some k) opts delivered).1 = [req] ∧
      req.url = stripTrailingSlash baseUrl ++ "/models/" ++ model ++
        ":streamGenerateContent?alt=sse" ∧
      req.method = "POST" ∧
      ("Content-Type", "application/json") ∈ req.headers ∧
      ("x-goog-api-key", k) ∈ req.headers ∧
      ("Accept", "text/event-stream") ∈ req.headers ∧
      ("Connection", "keep-alive") ∈ req.headers ∧
      req.body.contents = messages.map (fun m =>
        { role := if m.role = "user" then "user" else "model",
          parts := [m.content] }) ∧
      req.body.generationConfig.temperature = 7/10 := by
  refine ⟨{ url := buildUrl baseUrl model, method := "POST",
            headers := buildHeaders k, body := buildBody messages },
    ?_, rfl, rfl, ?_, ?_, ?_, ?_, rfl, rfl⟩
  · simp [chatStream, hk]
  all_goals simp [buildHeaders]

/-- C8 witness: concrete request for base URL with trailing slash, model
gemini-pro, one user message and key k1. -/
theorem chatStream_request_shape_witness :
    ("k1" : String) ≠ "" ∧
    ∃ req : SseRequest,
      (chatStream "https://host/v1beta/" "gemini-pro"
        [{ role := "user", content := "Hi" }] (some "k1") [] []).1 = [req] ∧
      req.url = stripTrailingSlash "https://host/v1beta/" ++ "/models/" ++ "gemini-pro" ++
        ":streamGenerateContent?alt=sse" ∧
      req.method = "POST" ∧
      ("Content-Type", "application/json") ∈ req.headers ∧
      ("x-goog-api-key", "k1") ∈ req.headers ∧
      ("Accept", "text/event-stream") ∈ req.headers ∧
      ("Connection", "keep-alive") ∈ req.headers ∧
      req.body.contents = [({ role := "user", content := "Hi" } : LlmMessage)].map (fun m =>
        { role := if m.role = "user" then "user" else "model",
          parts := [m.content] }) ∧
      req.body.generationConfig.temperature = 7/10 :=
  ⟨by decide, chatStream_request_shape "https://host/v1beta/" "gemini-pro"
    [{ role := "user", content := "Hi" }] "k1" [] [] (by decide)⟩

/-- C9: the dedup early return precedes the finish-reason and
promptFeedback checks: under an untracked identity, any chunk whose
first-part text length equals that of a previously delivered chunk is
dropped entirely — it produces no callback even if its text, finish
reason or block reason differ. -/
theorem equal_first_len_chunk_dropped_entirely (s : GState) (c1 c2 : GenChunk)
    (h1 : c1.responseId = none) (h2 : c2.responseId = none)
    (hlen : firstLen c1 = firstLen c2) :
    (onData (onData s (.parsed c1)).1 (.parsed c2)).2 = [] := by
  have hkey : chunkKey s.currentResponseId c2 = chunkKey s.currentResponseId c1 := by
    simp [chunkKey, hlen]
  by_cases hmem : chunkKey s.currentResponseId c1 ∈ s.processedChunks
  · simp [onData, updateId_none h1, updateId_none h2, hmem, hkey]
  · simp [onData, updateId_none h1, updateId_none h2, hmem, hkey]

/-- C9 witness: after the abc chunk, a chunk with text xyz (same length
3) carrying finishReason STOP and a SAFETY block reason produces no
callback at all: its completion and its content-policy block are
silently swallowed. -/
theorem equal_first_len_chunk_dropped_entirely_witness :
    cAbc.responseId = none ∧ cXyzStopBlock.responseId = none ∧
    firstLen cAbc = firstLen cXyzStopBlock ∧
    (onData (onData initState (.parsed cAbc)).1 (.parsed cXyzStopBlock)).2 = [] :=
  ⟨rfl, rfl, by decide,
   equal_first_len_chunk_dropped_entirely initState cAbc cXyzStopBlock rfl rfl
     (by decide)⟩

/-- C10: the outgoing request of chatStream does not depend on the
caller-supplied options: the whole observable outcome is identical for
any two options records, and every issued request fixes temperature to
0.7 and thinkingBudget to 0. -/
theorem request_independent_of_options (baseUrl model : String)
    (messages : List LlmMessage) (apiKey : Option String)
    (delivered : List RawChunk) (o1 o2 : Opts) :
    chatStream baseUrl model messages apiKey o1 delivered =
      chatStream baseUrl model messages apiKey o2 delivered ∧
    ((chatStream baseUrl model messages apiKey o1 delivered).1.all fun req =>
      decide (req.body.generationConfig.temperature = 7/10) &&
      decide (req.body.generationConfig.thinkingBudget = 0)) = true := by
  refine ⟨rfl, ?_⟩
  match apiKey with
  | none => rfl
  | some k =>
    by_cases hk : k = "" <;> simp [chatStream, hk, buildBody]

end Chatless
